import Mathlib

/-!
Shallow embedding of the `sad-cli` run-orchestration pipeline
(`main.py`, `cli.py`, `config.py`, `src/piper_tts.py`).

External processes (the `piper` TTS engine and the SadTalker inference
module) are modelled as oracles describing their observable behaviour
(exit code, stderr text, the state of the output file after the run).
The filesystem is modelled as the set of existing directories, with
paths as component lists; string paths are assumed POSIX-normalized
(components free of `/`, no trailing slash).
-/

namespace SadCli

/-! ## Path helpers (model of `os.path` / `pathlib` on normalized paths) -/

/-- Split a character list on `/`, keeping empty components, as Python's
`"..".split("/")` does; the result is never empty. -/
def splitPathList (cs : List Char) : List String :=
  cs.foldr
    (fun c acc =>
      match acc with
      | [] => [String.mk [c]]
      | hd :: tl =>
        if c = '/' then "" :: hd :: tl
        else String.mk (c :: hd.toList) :: tl)
    [""]

/-- Split a path string into its `/`-separated components. -/
def splitPath (s : String) : List String := splitPathList s.toList

/-- Join path components with `/` (model of `str(Path(...))` on the same). -/
def joinPath (comps : List String) : String := String.intercalate "/" comps

/-- Model of `os.path.dirname` on a normalized path: everything before the
last `/`, or `""` when the path has a single component. -/
def dirname (s : String) : String := joinPath (splitPath s).dropLast

/-- Model of `pathlib.Path(s).name` on a normalized path: the last component. -/
def pathName (s : String) : String := ((splitPath s).getLast?).getD ""

/-! ## Preprocessing mode and the `still` flag (`main.py` 103-108, 137;
`cli.py` 53-58, 82) -/

/-- `main.py` 103-108 / `cli.py` 53-58: map the menu choice to the
preprocess mode string. -/
def preprocessOfChoice (choice : String) : String :=
  if choice = "1" then "crop"
  else if choice = "2" then "full"
  else "extfull"

/-- Python's `str.startswith`: prefix test on the character lists. -/
def pyStartsWith (s pre : String) : Bool := pre.toList.isPrefixOf s.toList

/-- Python's `str.endswith` (and the `rglob("*.mp4")` name filter):
suffix test on the character lists. -/
def pyEndsWith (s suffix : String) : Bool := suffix.toList.isSuffixOf s.toList

/-- Python's `str.strip()`: drop whitespace from both ends. -/
def pyStrip (s : String) : String :=
  String.mk
    (((s.toList.dropWhile Char.isWhitespace).reverse.dropWhile
        Char.isWhitespace).reverse)

/-- `main.py` 137 / `cli.py` 82: `still = preprocess.startswith("full")`. -/
def computeStill (preprocess : String) : Bool := pyStartsWith preprocess "full"

/-! ## Default voice resolution (`main.py` 62-78) -/

/-- `main.py` 63-71: resolve the default voice menu choice.  The argument is
`some (defaultPath, malePath, femalePath)` when the path handling in the
`try` block succeeds; `none` models an exception caught by the bare
`except`, which leaves the initial `"2"` in place. -/
def piperDefaultChoice (r : Option (String × String × String)) : String :=
  match r with
  | none => "2"
  | some (dp, mp, fp) =>
    if pathName dp = pathName mp then "1"
    else if pathName dp = pathName fp then "2"
    else "2"

/-- `main.py` 78: `voice_model = PIPER_VOICE_MALE if voice_choice == "1"
else PIPER_VOICE_FEMALE`. -/
def voiceModelOfChoice (choice maleModel femaleModel : String) : String :=
  if choice = "1" then maleModel else femaleModel

/-- `main.py` 124: `enhancer = "gfpgan" if enhancer_choice == "2" else
None`. -/
def enhancerOfChoice (choice : String) : Option String :=
  if choice = "2" then some "gfpgan" else none

/-! ## Non-empty text prompt loop (`main.py` 56-60) -/

/-- `main.py` 56-60: keep reading lines until one is non-empty after
stripping; the argument is the sequence of lines the user types. -/
def promptText : List String → Option String
  | [] => none
  | x :: xs =>
    let t := pyStrip x
    if t ≠ "" then some t else promptText xs

/-! ## Filesystem model: the set of existing directories, paths as
component lists -/

/-- The directory part of the filesystem: the list of existing directory
paths (each a component list). -/
structure FS where
  dirs : List (List String)
  deriving Repr, DecidableEq

inductive FsError where
  | fileExists (p : List String)
  | fileNotFound (p : List String)
  deriving Repr, DecidableEq

/-- All non-empty prefixes of a path: the path itself and its ancestors. -/
def pathPrefixes (p : List String) : List (List String) :=
  (List.range p.length).map (fun k => p.take (k + 1))

/-- Model of `pathlib.Path.mkdir(parents=..., exist_ok=...)`. -/
def mkdir (fs : FS) (p : List String) (parents exist_ok : Bool) :
    Except FsError FS :=
  if p ∈ fs.dirs then
    if exist_ok then .ok fs else .error (.fileExists p)
  else if parents then
    .ok ⟨pathPrefixes p ++ fs.dirs⟩
  else if p.dropLast ∈ fs.dirs then
    .ok ⟨p :: fs.dirs⟩
  else
    .error (.fileNotFound p)

/-- Model of `os.makedirs(d, exist_ok=True)`: creates the directory and all
missing ancestors, never failing when it already exists. -/
def makedirs (fs : FS) (p : List String) : FS :=
  if p ∈ fs.dirs then fs else ⟨pathPrefixes p ++ fs.dirs⟩

/-! ## External-process oracles -/

/-- Observable behaviour of one `subprocess.run(cmd, capture_output=True)`
call on the `piper` executable: its exit status, its captured stderr,
and the state of the output wav file after the process exits. -/
structure ProcBehavior where
  returncode : Int
  stderr : String
  outputExists : Bool
  outputSize : Nat
  deriving Repr, DecidableEq

/-- Observable behaviour of the `subprocess.check_call` on the SadTalker
inference module: exit status and the text the process writes to stderr
(which goes to the terminal, uncaptured). -/
structure AnimBehavior where
  returncode : Int
  stderrText : String
  deriving Repr, DecidableEq

/-- `subprocess.CalledProcessError` as raised by `check_call`: it carries
the exit status and the command; its `stderr` attribute is `None` unless
output was captured. -/
structure CalledProcessError where
  returncode : Int
  cmd : List String
  capturedStderr : Option String
  deriving Repr, DecidableEq

/-- Model of `subprocess.check_call(cmd)` (`main.py` 189, `cli.py` 116):
raises `CalledProcessError` on non-zero exit; stderr is not captured, so
the error's `stderr` attribute is `None`. -/
def checkCall (cmd : List String) (b : AnimBehavior) :
    Except CalledProcessError Unit :=
  if b.returncode ≠ 0 then
    .error ⟨b.returncode, cmd, none⟩
  else
    .ok ()

/-! ## SpeechStage: `src/piper_tts.py` `speak` -/

/-- Externally visible actions of the pipeline, in the order performed. -/
inductive Event where
  | mkdirEv (p : List String)
  | makeDirsEv (dir : String)
  | piperInvoked (cmd : List String)
  | animInvoked (cmd : List String)
  deriving Repr, DecidableEq

/-- Outcome of `speak`, mirroring its return/raise structure:
`ok` returns `output_wav_path`; `piperFailed` is the `RuntimeError` built
from the command line and the stripped captured stderr (line 31-35);
`emptyArtifact` is the `RuntimeError` for a missing or zero-size output
file (line 37-38). -/
inductive SpeakOutcome where
  | ok (path : String)
  | piperFailed (cmd : List String) (stderr : String)
  | emptyArtifact (path : String)
  deriving Repr, DecidableEq

/-- The piper command line (`piper_tts.py` 25-27). -/
def piperCmd (text output_wav_path voice_model : String)
    (extra_args : Option (List String)) : List String :=
  ["piper", "-m", voice_model, "-t", text, "-f", output_wav_path] ++
    (match extra_args with
     | some l => l
     | none => [])

/-- The result `speak` produces once piper has run (`piper_tts.py` 29-40):
non-zero exit raises the error carrying the command and the stripped
stderr; a missing or zero-size output file raises the empty-artifact
error; otherwise `output_wav_path` is returned. -/
def speakOutcomeOf (piper : ProcBehavior) (cmd : List String)
    (output_wav_path : String) : SpeakOutcome :=
  if piper.returncode ≠ 0 then
    .piperFailed cmd (pyStrip piper.stderr)
  else if ¬ piper.outputExists ∨ piper.outputSize = 0 then
    .emptyArtifact output_wav_path
  else
    .ok output_wav_path

/-- `src/piper_tts.py` `speak`: make the output directory when the path has
a directory component (lines 21-23), invoke piper (lines 25-29), and
produce `speakOutcomeOf` (lines 30-40).  Returns the outcome, the
filesystem after the directory creation, and the trace of actions. -/
def speak (text output_wav_path voice_model : String)
    (extra_args : Option (List String)) (fs : FS) (piper : ProcBehavior) :
    SpeakOutcome × FS × List Event :=
  let out_dir := dirname output_wav_path
  let cmd := piperCmd text output_wav_path voice_model extra_args
  (speakOutcomeOf piper cmd output_wav_path,
   if out_dir ≠ "" then makedirs fs (splitPath out_dir) else fs,
   (if out_dir ≠ "" then [.makeDirsEv out_dir] else []) ++
     [.piperInvoked cmd])

/-! ## Timestamp (`main.py` 145:
`time.strftime("%Y_%m_%d_%H.%M.%S", time.localtime())`) -/

/-- A broken-down local time as produced by `time.localtime()`. -/
structure Tm where
  year : Nat
  month : Nat
  day : Nat
  hour : Nat
  minute : Nat
  sec : Nat
  deriving Repr, DecidableEq

/-- The decimal digit character for `d < 10` (and a placeholder above). -/
def digitChar : Nat → Char
  | 0 => '0' | 1 => '1' | 2 => '2' | 3 => '3' | 4 => '4'
  | 5 => '5' | 6 => '6' | 7 => '7' | 8 => '8' | 9 => '9'
  | _ => '?'

/-- `strftime`'s two-digit zero-padded field (`%m`, `%d`, `%H`, `%M`, `%S`). -/
def pad2 (n : Nat) : List Char := [digitChar (n / 10), digitChar (n % 10)]

/-- `strftime`'s `%Y` for a four-digit year. -/
def pad4 (n : Nat) : List Char :=
  [digitChar (n / 1000), digitChar (n / 100 % 10),
   digitChar (n / 10 % 10), digitChar (n % 10)]

/-- `time.strftime("%Y_%m_%d_%H.%M.%S", t)`. -/
def fmtTimestamp (t : Tm) : String :=
  String.mk (pad4 t.year ++ '_' :: pad2 t.month ++ '_' :: pad2 t.day ++
    '_' :: pad2 t.hour ++ '.' :: pad2 t.minute ++ '.' :: pad2 t.sec)

/-- The shape `YYYY_MM_DD_HH.MM.SS`: 19 characters, digits in the date and
time fields, `_` and `.` separators exactly where the format puts them. -/
def timestampShape : List Char → Bool
  | [y1, y2, y3, y4, u1, mo1, mo2, u2, d1, d2, u3, h1, h2, p1, mi1, mi2,
     p2, s1, s2] =>
    y1.isDigit && y2.isDigit && y3.isDigit && y4.isDigit && u1 = '_' &&
    mo1.isDigit && mo2.isDigit && u2 = '_' && d1.isDigit && d2.isDigit &&
    u3 = '_' && h1.isDigit && h2.isDigit && p1 = '.' && mi1.isDigit &&
    mi2.isDigit && p2 = '.' && s1.isDigit && s2.isDigit
  | _ => false

/-! ## AnimationStage command line (`main.py` 159-183; `cli.py` 89-110
is the same without `--save_dir`) -/

/-- `main.py` 159-183: build the SadTalker invocation; `--still` is
appended only when `still` is true, `--enhancer <name>` only when
`enhancer` is truthy (`None` and `""` are falsy in Python). -/
def buildAnimCmd (pythonExe wav_path avatar_path result_dir save_dir
    size batch_size preprocess : String) (still : Bool)
    (enhancer : Option String) : List String :=
  let cmd := [pythonExe, "-m", "src.inference",
    "--driven_audio", wav_path,
    "--source_image", avatar_path,
    "--result_dir", result_dir,
    "--save_dir", save_dir,
    "--size", size,
    "--batch_size", batch_size,
    "--preprocess", preprocess]
  let cmd := if still then cmd ++ ["--still"] else cmd
  match enhancer with
  | some e => if e ≠ "" then cmd ++ ["--enhancer", e] else cmd
  | none => cmd

/-! ## ArtifactLocator (`main.py` 191-195; `cli.py` 119-123) -/

/-- A file tree rooted at the run's `result_dir`: what `rglob` walks. -/
inductive FTree where
  | file (name : String) (mtime : Nat)
  | dir (name : String) (children : List FTree)

mutual

/-- All files under a tree node, recursively, as `(name, mtime)` pairs. -/
def collectFiles : FTree → List (String × Nat)
  | .file n m => [(n, m)]
  | .dir _ cs => collectFilesList cs

def collectFilesList : List FTree → List (String × Nat)
  | [] => []
  | t :: ts => collectFiles t ++ collectFilesList ts

end

/-- `main.py` 191-195: `sorted(result_dir.rglob("*.mp4"),
key=os.path.getmtime)` then take the last entry; `none` models the
"no mp4 found" report. -/
def locate (tree : FTree) : Option (String × Nat) :=
  let matched := (collectFiles tree).filter (fun f => pyEndsWith f.1 ".mp4")
  let sortedFiles := matched.mergeSort (fun a b => a.2 ≤ b.2)
  sortedFiles.getLast?

/-! ## RunCoordinator: `main.py` 137-195 (after the interactive
configuration has been resolved) -/

/-- The configuration values resolved by the prompts, plus the run
identity (`uuid.uuid4()`) and the local time read at line 145. -/
structure RunInputs where
  text : String
  voiceModel : String
  avatarPath : String
  preprocess : String
  size : String
  batchSize : String
  enhancer : Option String
  runId : String
  now : Tm
  deriving Repr, DecidableEq

/-- The environment a run executes in: the initial filesystem, the
project root (`PROJECT_ROOT`), the `RESULTS_DIR` name, the interpreter
path (`sys.executable`), whether `Path(voice_model).exists()`, the two
external processes' behaviour, and the state of the result tree that
`rglob` sees after the animation stage. -/
structure World where
  fs : FS
  projectRoot : List String
  resultsDirName : String
  pythonExe : String
  voiceModelExists : Bool
  piper : ProcBehavior
  anim : AnimBehavior
  resultTree : FTree

/-- The ways a run fails, mirroring the exceptions `main` can raise from
line 139 on: a filesystem error from `mkdir`, the `FileNotFoundError`
for a missing voice model (lines 152-156), the two `RuntimeError`s from
`speak`, and `CalledProcessError` from `check_call`. -/
inductive RunError where
  | fsError (e : FsError)
  | missingVoiceModel (path : String)
  | piperFailed (cmd : List String) (stderr : String)
  | emptyArtifact (path : String)
  | animFailed (e : CalledProcessError)
  deriving Repr, DecidableEq

/-- The message of the `FileNotFoundError` at `main.py` 152-156: it names
the missing model and gives guidance on obtaining it. -/
def missingVoiceModelMsg (path : String) : String :=
  "Piper voice model not found: " ++
    (path ++
      ("\n" ++
        "Run: python setup.py --models-only, or place the .onnx under models/voices/"))

/-- How a completed run reports (`main.py` 191-195): the newest mp4, or
"no mp4 found" (non-fatal). -/
inductive RunOutcome where
  | video (name : String) (mtime : Nat)
  | noOutput
  deriving Repr, DecidableEq

/-- `main.py` 185-195: run the SadTalker command (line 189), then report
the newest mp4 under `result_dir` (lines 191-195). -/
def animAndLocate (w : World) (cmd : List String) (fs3 : FS)
    (sevs : List Event) : Except RunError RunOutcome × FS × List Event :=
  match checkCall cmd w.anim with
  | .error e => (.error (.animFailed e), fs3, sevs ++ [.animInvoked cmd])
  | .ok _ =>
    match locate w.resultTree with
    | some f =>
      (.ok (.video f.1 f.2), fs3, sevs ++ [.animInvoked cmd])
    | none => (.ok .noOutput, fs3, sevs ++ [.animInvoked cmd])

/-- `main.py` 157-195 given what `speak` returned: translate a speak
failure into the corresponding run error; otherwise build the SadTalker
command (lines 159-183) and run `animAndLocate`. -/
def stagesAfterSpeak (inp : RunInputs) (w : World)
    (result_dir save_dir : List String) (wav_path : String) :
    SpeakOutcome × FS × List Event →
      Except RunError RunOutcome × FS × List Event
  | (.piperFailed c s, fs3, sevs) => (.error (.piperFailed c s), fs3, sevs)
  | (.emptyArtifact p, fs3, sevs) => (.error (.emptyArtifact p), fs3, sevs)
  | (.ok _, fs3, sevs) =>
    animAndLocate w
      (buildAnimCmd w.pythonExe wav_path inp.avatarPath
        (joinPath result_dir) (joinPath save_dir) inp.size
        inp.batchSize inp.preprocess (computeStill inp.preprocess)
        inp.enhancer)
      fs3 sevs

/-- `main.py` 152-195, after the workspace has been allocated: check the
voice model exists (line 152-156), synthesize with piper into
`save_dir/piper.wav` (line 149-157), then run the remaining stages.
Returns the result, the filesystem after these steps, and the trace. -/
def runStages (inp : RunInputs) (w : World) (fs2 : FS)
    (result_dir save_dir : List String) :
    Except RunError RunOutcome × FS × List Event :=
  let wav_path := joinPath (save_dir ++ ["piper.wav"])
  if ¬ w.voiceModelExists then
    (.error (.missingVoiceModel inp.voiceModel), fs2, [])
  else
    stagesAfterSpeak inp w result_dir save_dir wav_path
      (speak inp.text wav_path inp.voiceModel none fs2 w.piper)

/-- `main.py` 139: `result_root = PROJECT_ROOT / RESULTS_DIR`. -/
def resultRoot (w : World) : List String :=
  w.projectRoot ++ [w.resultsDirName]

/-- `main.py` 142: `result_dir = result_root / run_id`. -/
def resultDir (inp : RunInputs) (w : World) : List String :=
  resultRoot w ++ [inp.runId]

/-- `main.py` 145-146: `save_dir = result_dir / timestamp`, the timestamp
being the formatted local time. -/
def saveDir (inp : RunInputs) (w : World) : List String :=
  resultDir inp w ++ [fmtTimestamp inp.now]

/-- `main.py` 137-195: create `results/` (line 140, exist_ok), create
`save_dir` (line 147, parents and exist_ok) under the uuid-named
`result_dir`, then run the stages (`runStages`).  Returns the result,
the final filesystem, and the ordered trace of actions. -/
def runPipeline (inp : RunInputs) (w : World) :
    Except RunError RunOutcome × FS × List Event :=
  match mkdir w.fs (resultRoot w) false true with
  | .error e => (.error (.fsError e), w.fs, [])
  | .ok fs1 =>
    match mkdir fs1 (saveDir inp w) true true with
    | .error e => (.error (.fsError e), fs1, [.mkdirEv (resultRoot w)])
    | .ok fs2 =>
      match runStages inp w fs2 (resultDir inp w) (saveDir inp w) with
      | (res, fs', evs) =>
        (res, fs',
          .mkdirEv (resultRoot w) :: .mkdirEv (saveDir inp w) :: evs)

/-! ## Sample inputs used to exercise the pipeline on concrete data -/

/-- A concrete local time. -/
def sampleTm : Tm := ⟨2026, 1, 2, 3, 4, 5⟩

/-- A concrete resolved configuration. -/
def sampleInputs : RunInputs :=
  ⟨"hello world", "models/voices/dii_pt-PT.onnx",
   "models/avatar_examples/avatar.jpg", "crop", "256", "1", none,
   "run-1", sampleTm⟩

/-- A concrete environment whose voice-model path is missing. -/
def sampleWorldNoVM : World :=
  ⟨⟨[["root"]]⟩, ["root"], "results", "python3", false,
   ⟨0, "", true, 5⟩, ⟨0, ""⟩, FTree.dir "r" []⟩

/-- A concrete environment in which everything succeeds. -/
def sampleWorldOk : World :=
  ⟨⟨[["root"]]⟩, ["root"], "results", "python3", true,
   ⟨0, "", true, 5⟩, ⟨0, ""⟩,
   FTree.dir "r" [FTree.file "a.mp4" 1, FTree.file "b.mp4" 2]⟩

/-! ## Helper lemmas -/

theorem splitPathList_ne_nil (cs : List Char) : splitPathList cs ≠ [] := by
  induction cs with
  | nil => simp [splitPathList]
  | cons c cs ih =>
    have hstep : splitPathList (c :: cs) =
        match splitPathList cs with
        | [] => [String.mk [c]]
        | hd :: tl =>
          if c = '/' then "" :: hd :: tl
          else String.mk (c :: hd.toList) :: tl := rfl
    rw [hstep]
    rcases splitPathList cs with _ | ⟨hd, tl⟩
    · simp
    · dsimp only
      split <;> simp

theorem splitPath_ne_nil (s : String) : splitPath s ≠ [] :=
  splitPathList_ne_nil s.toList

theorem take_mem_pathPrefixes {p : List String} {k : Nat} (h : k < p.length) :
    p.take (k + 1) ∈ pathPrefixes p :=
  List.mem_map.mpr ⟨k, List.mem_range.mpr h, rfl⟩

theorem append_mem_pathPrefixes {l : List String} (m : List String)
    (hl : l ≠ []) : l ∈ pathPrefixes (l ++ m) := by
  have hpos : 0 < l.length := List.length_pos.mpr hl
  have hlen : l.length - 1 < (l ++ m).length := by
    simp only [List.length_append]; omega
  have h2 := take_mem_pathPrefixes (p := l ++ m) hlen
  have h1 : l.length - 1 + 1 = l.length := by omega
  rw [h1, List.take_left' rfl] at h2
  exact h2

theorem self_mem_pathPrefixes {l : List String} (hl : l ≠ []) :
    l ∈ pathPrefixes l := by
  have h := append_mem_pathPrefixes [] hl
  rwa [List.append_nil] at h

theorem mem_makedirs_of_mem {fs : FS} {p q : List String}
    (h : q ∈ fs.dirs) : q ∈ (makedirs fs p).dirs := by
  unfold makedirs
  split
  · exact h
  · exact List.mem_append.mpr (Or.inr h)

theorem self_mem_makedirs {fs : FS} {p : List String} (hp : p ≠ []) :
    p ∈ (makedirs fs p).dirs := by
  unfold makedirs
  split
  · assumption
  · exact List.mem_append.mpr (Or.inl (self_mem_pathPrefixes hp))

theorem speak_fs (text path model : String) (extra : Option (List String))
    (fs : FS) (piper : ProcBehavior) :
    (speak text path model extra fs piper).2.1 =
      if dirname path ≠ "" then makedirs fs (splitPath (dirname path))
      else fs := rfl

theorem speak_trace (text path model : String) (extra : Option (List String))
    (fs : FS) (piper : ProcBehavior) :
    (speak text path model extra fs piper).2.2 =
      (if dirname path ≠ "" then [Event.makeDirsEv (dirname path)] else []) ++
        [Event.piperInvoked (piperCmd text path model extra)] := rfl

theorem speak_outcome (text path model : String) (extra : Option (List String))
    (fs : FS) (piper : ProcBehavior) :
    (speak text path model extra fs piper).1 =
      if piper.returncode ≠ 0 then
        .piperFailed (piperCmd text path model extra) (pyStrip piper.stderr)
      else if ¬ piper.outputExists ∨ piper.outputSize = 0 then
        .emptyArtifact path
      else
        .ok path := rfl

theorem animAndLocate_fs (w : World) (cmd : List String) (fs3 : FS)
    (sevs : List Event) : (animAndLocate w cmd fs3 sevs).2.1 = fs3 := by
  rcases h : checkCall cmd w.anim with e | u
  · simp [animAndLocate, h]
  · rcases hl : locate w.resultTree with _ | f <;> simp [animAndLocate, h, hl]

theorem animAndLocate_ne_fsError (w : World) (cmd : List String) (fs3 : FS)
    (sevs : List Event) (e : FsError) :
    (animAndLocate w cmd fs3 sevs).1 ≠ .error (.fsError e) := by
  rcases h : checkCall cmd w.anim with e' | u
  · simp [animAndLocate, h]
  · rcases hl : locate w.resultTree with _ | f <;> simp [animAndLocate, h, hl]

theorem stagesAfterSpeak_fs (inp : RunInputs) (w : World)
    (rd sd : List String) (wav : String)
    (s : SpeakOutcome × FS × List Event) :
    (stagesAfterSpeak inp w rd sd wav s).2.1 = s.2.1 := by
  rcases s with ⟨o, fs3, sevs⟩
  cases o with
  | ok p => exact animAndLocate_fs _ _ _ _
  | piperFailed c st => rfl
  | emptyArtifact p => rfl

theorem stagesAfterSpeak_ne_fsError (inp : RunInputs) (w : World)
    (rd sd : List String) (wav : String)
    (s : SpeakOutcome × FS × List Event) (e : FsError) :
    (stagesAfterSpeak inp w rd sd wav s).1 ≠ .error (.fsError e) := by
  rcases s with ⟨o, fs3, sevs⟩
  cases o with
  | ok p => exact animAndLocate_ne_fsError _ _ _ _ _
  | piperFailed c st => simp [stagesAfterSpeak]
  | emptyArtifact p => simp [stagesAfterSpeak]

theorem runStages_noVM (inp : RunInputs) (w : World) (fs2 : FS)
    (rd sd : List String) (h : w.voiceModelExists = false) :
    runStages inp w fs2 rd sd =
      (.error (.missingVoiceModel inp.voiceModel), fs2, []) := by
  unfold runStages
  simp [h]

theorem runStages_fs_mono (inp : RunInputs) (w : World) (fs2 : FS)
    (rd sd : List String) {q : List String} (h : q ∈ fs2.dirs) :
    q ∈ (runStages inp w fs2 rd sd).2.1.dirs := by
  unfold runStages
  by_cases hv : w.voiceModelExists
  · simp only [hv, not_true, if_neg, ite_false, Bool.not_true]
    rw [stagesAfterSpeak_fs, speak_fs]
    split
    · exact mem_makedirs_of_mem h
    · exact h
  · simp only [Bool.not_eq_true] at hv
    simp [hv, h]

theorem runStages_ne_fsError (inp : RunInputs) (w : World) (fs2 : FS)
    (rd sd : List String) (e : FsError) :
    (runStages inp w fs2 rd sd).1 ≠ .error (.fsError e) := by
  unfold runStages
  split
  · simp
  · exact stagesAfterSpeak_ne_fsError _ _ _ _ _ _ _

theorem runPipeline_alloc (inp : RunInputs) (w : World)
    (hroot : w.projectRoot ∈ w.fs.dirs)
    (hfresh : saveDir inp w ∉ w.fs.dirs) :
    ∃ fs2 : FS,
      (resultRoot w ∈ fs2.dirs ∧ resultDir inp w ∈ fs2.dirs ∧
        saveDir inp w ∈ fs2.dirs) ∧
      runPipeline inp w =
        ((runStages inp w fs2 (resultDir inp w) (saveDir inp w)).1,
         (runStages inp w fs2 (resultDir inp w) (saveDir inp w)).2.1,
         Event.mkdirEv (resultRoot w) :: Event.mkdirEv (saveDir inp w) ::
           (runStages inp w fs2 (resultDir inp w) (saveDir inp w)).2.2) := by
  have hrrne : resultRoot w ≠ [] := by simp [resultRoot]
  have hrdne : resultDir inp w ≠ [] := by simp [resultDir]
  have hsdne : saveDir inp w ≠ [] := by simp [saveDir]
  have hsd_assoc :
      saveDir inp w = resultRoot w ++ ([inp.runId] ++ [fmtTimestamp inp.now]) := by
    simp [saveDir, resultDir]
  have hlen : saveDir inp w ≠ resultRoot w := by
    intro h
    have hcon := congrArg List.length h
    simp [saveDir, resultDir, resultRoot] at hcon
  have hmem1 : resultRoot w ∈ pathPrefixes (saveDir inp w) := by
    rw [hsd_assoc]
    exact append_mem_pathPrefixes _ hrrne
  have hmem2 : resultDir inp w ∈ pathPrefixes (saveDir inp w) :=
    append_mem_pathPrefixes _ hrdne
  have hmem3 : saveDir inp w ∈ pathPrefixes (saveDir inp w) :=
    self_mem_pathPrefixes hsdne
  by_cases hrr : resultRoot w ∈ w.fs.dirs
  · have h1 : mkdir w.fs (resultRoot w) false true = .ok w.fs := by
      unfold mkdir; simp [hrr]
    have h2 : mkdir w.fs (saveDir inp w) true true =
        .ok ⟨pathPrefixes (saveDir inp w) ++ w.fs.dirs⟩ := by
      unfold mkdir; simp [hfresh]
    refine ⟨⟨pathPrefixes (saveDir inp w) ++ w.fs.dirs⟩,
      ⟨List.mem_append.mpr (Or.inl hmem1),
       List.mem_append.mpr (Or.inl hmem2),
       List.mem_append.mpr (Or.inl hmem3)⟩, ?_⟩
    unfold runPipeline
    rw [h1]; dsimp only; rw [h2]
  · have hpar : (resultRoot w).dropLast ∈ w.fs.dirs := by
      have : (resultRoot w).dropLast = w.projectRoot := by
        simp [resultRoot]
      rw [this]; exact hroot
    have h1 : mkdir w.fs (resultRoot w) false true =
        .ok ⟨resultRoot w :: w.fs.dirs⟩ := by
      unfold mkdir; simp [hrr, hpar]
    have hsd1 : saveDir inp w ∉ (resultRoot w :: w.fs.dirs) := by
      simp only [List.mem_cons, not_or]
      exact ⟨hlen, hfresh⟩
    have h2 : mkdir ⟨resultRoot w :: w.fs.dirs⟩ (saveDir inp w) true true =
        .ok ⟨pathPrefixes (saveDir inp w) ++ (resultRoot w :: w.fs.dirs)⟩ := by
      unfold mkdir; simp [hsd1]
    refine ⟨⟨pathPrefixes (saveDir inp w) ++ (resultRoot w :: w.fs.dirs)⟩,
      ⟨List.mem_append.mpr (Or.inl hmem1),
       List.mem_append.mpr (Or.inl hmem2),
       List.mem_append.mpr (Or.inl hmem3)⟩, ?_⟩
    unfold runPipeline
    rw [h1]; dsimp only; rw [h2]

theorem digitChar_isDigit {d : Nat} (h : d < 10) :
    (digitChar d).isDigit = true := by
  interval_cases d <;> rfl

theorem timestampShape_fmtTimestamp {t : Tm} (hy : t.year < 10000)
    (hmo : t.month < 100) (hd : t.day < 100) (hh : t.hour < 100)
    (hmi : t.minute < 100) (hs : t.sec < 100) :
    timestampShape (fmtTimestamp t).toList = true := by
  have e : (fmtTimestamp t).toList =
      pad4 t.year ++ '_' :: pad2 t.month ++ '_' :: pad2 t.day ++
        '_' :: pad2 t.hour ++ '.' :: pad2 t.minute ++ '.' :: pad2 t.sec := rfl
  rw [e]
  simp only [pad4, pad2, List.cons_append, List.nil_append, timestampShape,
    digitChar_isDigit (show t.year / 1000 < 10 by omega),
    digitChar_isDigit (show t.year / 100 % 10 < 10 by omega),
    digitChar_isDigit (show t.year / 10 % 10 < 10 by omega),
    digitChar_isDigit (show t.year % 10 < 10 by omega),
    digitChar_isDigit (show t.month / 10 < 10 by omega),
    digitChar_isDigit (show t.month % 10 < 10 by omega),
    digitChar_isDigit (show t.day / 10 < 10 by omega),
    digitChar_isDigit (show t.day % 10 < 10 by omega),
    digitChar_isDigit (show t.hour / 10 < 10 by omega),
    digitChar_isDigit (show t.hour % 10 < 10 by omega),
    digitChar_isDigit (show t.minute / 10 < 10 by omega),
    digitChar_isDigit (show t.minute % 10 < 10 by omega),
    digitChar_isDigit (show t.sec / 10 < 10 by omega),
    digitChar_isDigit (show t.sec % 10 < 10 by omega)]
  simp

theorem pairwise_getLast?_ge {α : Type} {R : α → α → Prop} :
    ∀ (l : List α), l.Pairwise R → ∀ f, l.getLast? = some f →
      ∀ g ∈ l, R g f ∨ g = f := by
  intro l
  induction l with
  | nil => intro _ f hf; simp at hf
  | cons a l ih =>
    intro hp f hf g hg
    rcases l with _ | ⟨b, l'⟩
    · right
      simp only [List.getLast?_singleton, Option.some_inj] at hf
      simp only [List.mem_singleton] at hg
      rw [hg, hf]
    · rw [List.getLast?_cons_cons] at hf
      rcases List.mem_cons.mp hg with hga | hgl
      · left
        have hf_mem : f ∈ b :: l' :=
          List.mem_of_mem_getLast? (Option.mem_def.mpr hf)
        rw [hga]
        exact (List.pairwise_cons.mp hp).1 f hf_mem
      · exact ih (List.pairwise_cons.mp hp).2 f hf g hgl

theorem locate_some_newest (t : FTree) (f : String × Nat)
    (h : locate t = some f) :
    pyEndsWith f.1 ".mp4" = true ∧ f ∈ collectFiles t ∧
      ∀ g ∈ collectFiles t, pyEndsWith g.1 ".mp4" = true → g.2 ≤ f.2 := by
  unfold locate at h
  have hperm :
      List.Perm
        (((collectFiles t).filter (fun x => pyEndsWith x.1 ".mp4")).mergeSort
          (fun a b => a.2 ≤ b.2))
        ((collectFiles t).filter (fun x => pyEndsWith x.1 ".mp4")) :=
    List.mergeSort_perm _ _
  have hf_sorted :
      f ∈ ((collectFiles t).filter (fun x => pyEndsWith x.1 ".mp4")).mergeSort
        (fun a b => a.2 ≤ b.2) :=
    List.mem_of_mem_getLast? (Option.mem_def.mpr h)
  have hf_matched := hperm.mem_iff.mp hf_sorted
  have hf1 := List.mem_filter.mp hf_matched
  refine ⟨hf1.2, hf1.1, ?_⟩
  intro g hg hgends
  have hg_sorted :
      g ∈ ((collectFiles t).filter (fun x => pyEndsWith x.1 ".mp4")).mergeSort
        (fun a b => a.2 ≤ b.2) :=
    hperm.mem_iff.mpr (List.mem_filter.mpr ⟨hg, hgends⟩)
  have hpair :
      (((collectFiles t).filter (fun x => pyEndsWith x.1 ".mp4")).mergeSort
          (fun a b => a.2 ≤ b.2)).Pairwise
        (fun a b => decide (a.2 ≤ b.2) = true) :=
    List.sorted_mergeSort
      (fun a b c hab hbc => by
        simp only [decide_eq_true_eq] at *
        omega)
      (fun a b => by
        rcases Nat.le_total a.2 b.2 with h' | h' <;> simp [h'])
      ((collectFiles t).filter (fun x => pyEndsWith x.1 ".mp4"))
  have hlast := pairwise_getLast?_ge _ hpair f h g hg_sorted
  rcases hlast with hR | heq
  · exact of_decide_eq_true hR
  · rw [heq]

theorem locate_none_noMatch (t : FTree) (h : locate t = none) :
    ∀ g ∈ collectFiles t, pyEndsWith g.1 ".mp4" = false := by
  unfold locate at h
  have hnil :
      ((collectFiles t).filter (fun x => pyEndsWith x.1 ".mp4")).mergeSort
        (fun a b => a.2 ≤ b.2) = [] :=
    List.getLast?_eq_none_iff.mp h
  have hperm := List.mergeSort_perm
    ((collectFiles t).filter (fun x => pyEndsWith x.1 ".mp4"))
    (fun (a b : String × Nat) => decide (a.2 ≤ b.2))
  rw [hnil] at hperm
  have hmnil : (collectFiles t).filter (fun x => pyEndsWith x.1 ".mp4") = [] :=
    hperm.symm.eq_nil
  intro g hg
  have := List.filter_eq_nil_iff.mp hmnil g hg
  exact Bool.not_eq_true _ ▸ by simpa using this

/-! ## Claim C1: the still flag -/

/-- C1 counterexample: the claim says still is true for `extfull`, but
menu choice "3" yields mode `extfull` and the computed still flag is
`false`, because `"extfull"` does not start with `"full"`. -/
theorem c1_extfull_not_still :
    preprocessOfChoice "3" = "extfull" ∧
      computeStill (preprocessOfChoice "3") = false := by
  constructor <;> decide

/-- C1 (amended): for every selectable preprocessing mode, the computed
still flag equals the test "the mode string starts with `full`", which
holds for `full` alone: it is false for `crop` and also false for
`extfull` (whose string starts with `ext`). -/
theorem c1_still_startswith_full :
    computeStill "crop" = false ∧ computeStill "full" = true ∧
      computeStill "extfull" = false ∧
      ∀ choice : String,
        computeStill (preprocessOfChoice choice) =
          (preprocessOfChoice choice == "full") := by
  refine ⟨by decide, by decide, by decide, ?_⟩
  intro c
  unfold preprocessOfChoice
  by_cases h1 : c = "1"
  · rw [if_pos h1]
    decide
  · by_cases h2 : c = "2"
    · rw [if_neg h1, if_pos h2]
      decide
    · rw [if_neg h1, if_neg h2]
      decide

/-! ## Claim C2: speak post-verification of the output file -/

/-- C2: when piper exits with status zero, `speak` raises the
empty-artifact error if the output wav file does not exist or has size
zero, and otherwise returns exactly the output path it was given. -/
theorem c2_speak_postcondition (text path model : String)
    (extra : Option (List String)) (fs : FS) (piper : ProcBehavior)
    (hrc : piper.returncode = 0) :
    ((¬ piper.outputExists = true ∨ piper.outputSize = 0) →
      (speak text path model extra fs piper).1 = .emptyArtifact path) ∧
    (piper.outputExists = true → piper.outputSize ≠ 0 →
      (speak text path model extra fs piper).1 = .ok path) := by
  constructor
  · intro hbad
    rw [speak_outcome, if_neg (by simp [hrc]), if_pos hbad]
  · intro hex hsz
    rw [speak_outcome, if_neg (by simp [hrc]),
      if_neg (by simp [hex, hsz])]

/-- C2 witness: concrete zero-exit runs, one with a zero-size output file
and one with a non-empty output file. -/
theorem c2_witness :
    (speak "hi" "out.wav" "m.onnx" none ⟨[["d"]]⟩ ⟨0, "", false, 0⟩).1 =
        .emptyArtifact "out.wav" ∧
      (speak "hi" "out.wav" "m.onnx" none ⟨[["d"]]⟩ ⟨0, "", true, 9⟩).1 =
        .ok "out.wav" :=
  ⟨(c2_speak_postcondition "hi" "out.wav" "m.onnx" none ⟨[["d"]]⟩
      ⟨0, "", false, 0⟩ rfl).1 (Or.inl (by decide)),
   (c2_speak_postcondition "hi" "out.wav" "m.onnx" none ⟨[["d"]]⟩
      ⟨0, "", true, 9⟩ rfl).2 rfl (by decide)⟩

/-! ## Claim C3: empty text -/

/-- C3 counterexample: called with empty text (and a piper run that exits
zero with a non-empty output), `speak` does not fail before the external
process: the piper command with `-t ""` is invoked and the call returns
normally. -/
theorem c3_empty_text_invokes_piper :
    (speak "" "out/x.wav" "m.onnx" none ⟨[]⟩ ⟨0, "", true, 100⟩).1 =
        .ok "out/x.wav" ∧
      Event.piperInvoked ["piper", "-m", "m.onnx", "-t", "", "-f",
          "out/x.wav"] ∈
        (speak "" "out/x.wav" "m.onnx" none ⟨[]⟩ ⟨0, "", true, 100⟩).2.2 := by
  constructor <;> decide

/-- C3 (amended): `speak` itself performs no emptiness check — it invokes
the piper process even when the text is empty; the guarantee comes from
the interactive entry point, whose prompt loop only ever yields non-empty
(stripped) text, so `speak` is never reached with empty text from the
CLI. -/
theorem c3_no_empty_check_but_prompt_guards :
    (∀ (path model : String) (extra : Option (List String)) (fs : FS)
        (piper : ProcBehavior),
        Event.piperInvoked (piperCmd "" path model extra) ∈
          (speak "" path model extra fs piper).2.2) ∧
    (∀ (inputs : List String) (t : String),
        promptText inputs = some t → t ≠ "") := by
  constructor
  · intro path model extra fs piper
    rw [speak_trace]
    simp
  · intro inputs
    induction inputs with
    | nil => intro t h; simp [promptText] at h
    | cons x xs ih =>
      intro t h
      by_cases hx : pyStrip x = ""
      · rw [show promptText (x :: xs) = promptText xs by
          simp [promptText, hx]] at h
        exact ih t h
      · rw [show promptText (x :: xs) = some (pyStrip x) by
          simp [promptText, hx]] at h
        injection h with h'
        rw [← h']
        exact hx

/-- C3 witness for the amended claim, at concrete inputs. -/
theorem c3_witness :
    Event.piperInvoked (piperCmd "" "o.wav" "m" none) ∈
        (speak "" "o.wav" "m" none ⟨[]⟩ ⟨1, "e", false, 0⟩).2.2 ∧
      ("hi" : String) ≠ "" :=
  ⟨c3_no_empty_check_but_prompt_guards.1 "o.wav" "m" none ⟨[]⟩
      ⟨1, "e", false, 0⟩,
   c3_no_empty_check_but_prompt_guards.2 ["", "hi"] "hi" (by decide)⟩

/-! ## Claim C4: errors carried on non-zero exit -/

/-- C4 counterexample: the animation stage is run through `check_call`
without capturing output, so the `CalledProcessError` raised on non-zero
exit carries `None` as its stderr attribute — not the text the process
wrote to stderr. -/
theorem c4_anim_error_lacks_stderr :
    checkCall ["python3", "-m", "src.inference"] ⟨1, "boom"⟩ =
        .error ⟨1, ["python3", "-m", "src.inference"], none⟩ ∧
      (⟨1, ["python3", "-m", "src.inference"], none⟩ :
          CalledProcessError).capturedStderr ≠ some "boom" := by
  refine ⟨rfl, by decide⟩

/-- C4 (amended): on non-zero exit the TTS stage fails with an error
carrying both the piper command line and the captured (stripped) stderr
text; the animation stage fails with a `CalledProcessError` that carries
the command line and exit status but no captured stderr. -/
theorem c4_stage_errors (text path model : String)
    (extra : Option (List String)) (fs : FS) (piper : ProcBehavior)
    (cmd : List String) (anim : AnimBehavior)
    (hp : piper.returncode ≠ 0) (ha : anim.returncode ≠ 0) :
    (speak text path model extra fs piper).1 =
        .piperFailed (piperCmd text path model extra)
          (pyStrip piper.stderr) ∧
      checkCall cmd anim = .error ⟨anim.returncode, cmd, none⟩ := by
  constructor
  · rw [speak_outcome]
    simp [hp]
  · unfold checkCall
    simp [ha]

/-- C4 witness for the amended claim, at concrete inputs. -/
theorem c4_witness :
    (speak "hello" "o.wav" "m" none ⟨[]⟩ ⟨2, " boom ", false, 0⟩).1 =
        .piperFailed (piperCmd "hello" "o.wav" "m" none)
          (pyStrip " boom ") ∧
      checkCall ["x"] ⟨3, "err"⟩ = .error ⟨3, ["x"], none⟩ :=
  c4_stage_errors "hello" "o.wav" "m" none ⟨[]⟩ ⟨2, " boom ", false, 0⟩
    ["x"] ⟨3, "err"⟩ (by decide) (by decide)

/-! ## Claim C5: workspace allocation -/

/-- C5: with the project root present and a fresh run identity, the
pipeline creates `resultsRoot` without failing whether or not it already
exists (no filesystem error is ever reported), creates both the
RunIdentity-named `resultDir` and its timestamp-named `saveDir` eagerly —
the two directory creations are the first two actions of the run, before
any stage — and the `saveDir` name is the local time formatted exactly
as `YYYY_MM_DD_HH.MM.SS`. -/
theorem c5_workspace_allocation (inp : RunInputs) (w : World)
    (hroot : w.projectRoot ∈ w.fs.dirs)
    (hfresh : saveDir inp w ∉ w.fs.dirs)
    (hy : inp.now.year < 10000) (hmo : inp.now.month < 100)
    (hd : inp.now.day < 100) (hh : inp.now.hour < 100)
    (hmi : inp.now.minute < 100) (hs : inp.now.sec < 100) :
    (∀ e, (runPipeline inp w).1 ≠ .error (.fsError e)) ∧
      resultRoot w ∈ (runPipeline inp w).2.1.dirs ∧
      resultDir inp w ∈ (runPipeline inp w).2.1.dirs ∧
      saveDir inp w ∈ (runPipeline inp w).2.1.dirs ∧
      (runPipeline inp w).2.2.take 2 =
        [Event.mkdirEv (resultRoot w), Event.mkdirEv (saveDir inp w)] ∧
      saveDir inp w = resultDir inp w ++ [fmtTimestamp inp.now] ∧
      timestampShape (fmtTimestamp inp.now).toList = true := by
  obtain ⟨fs2, ⟨hm1, hm2, hm3⟩, heq⟩ := runPipeline_alloc inp w hroot hfresh
  rw [heq]
  refine ⟨?_, ?_, ?_, ?_, rfl, rfl,
    timestampShape_fmtTimestamp hy hmo hd hh hmi hs⟩
  · intro e
    exact runStages_ne_fsError inp w fs2 (resultDir inp w) (saveDir inp w) e
  · exact runStages_fs_mono inp w fs2 (resultDir inp w) (saveDir inp w) hm1
  · exact runStages_fs_mono inp w fs2 (resultDir inp w) (saveDir inp w) hm2
  · exact runStages_fs_mono inp w fs2 (resultDir inp w) (saveDir inp w) hm3

/-- C5 witness: the allocation properties evaluated on a concrete run. -/
theorem c5_witness :
    (∀ e, (runPipeline sampleInputs sampleWorldNoVM).1 ≠
        .error (.fsError e)) ∧
      resultRoot sampleWorldNoVM ∈
        (runPipeline sampleInputs sampleWorldNoVM).2.1.dirs ∧
      resultDir sampleInputs sampleWorldNoVM ∈
        (runPipeline sampleInputs sampleWorldNoVM).2.1.dirs ∧
      saveDir sampleInputs sampleWorldNoVM ∈
        (runPipeline sampleInputs sampleWorldNoVM).2.1.dirs ∧
      (runPipeline sampleInputs sampleWorldNoVM).2.2.take 2 =
        [Event.mkdirEv (resultRoot sampleWorldNoVM),
         Event.mkdirEv (saveDir sampleInputs sampleWorldNoVM)] ∧
      saveDir sampleInputs sampleWorldNoVM =
        resultDir sampleInputs sampleWorldNoVM ++
          [fmtTimestamp sampleInputs.now] ∧
      timestampShape (fmtTimestamp sampleInputs.now).toList = true :=
  c5_workspace_allocation sampleInputs sampleWorldNoVM (by decide)
    (by decide) (by decide) (by decide) (by decide) (by decide) (by decide)
    (by decide)

/-! ## Claim C6: the artifact locator -/

/-- C6: the artifact reported after the animation stage is the `.mp4`
file under `resultDir` (searched recursively) with the greatest
modification time; when no such file exists the result is `none`
("completed, but no output found", not an error).  On an empty result
directory the result is `none`; with an older `a.mp4` and a newer
`b.mp4` the result is `b.mp4`. -/
theorem c6_locator_newest_mp4 :
    locate (FTree.dir "result-dir" []) = none ∧
      locate (FTree.dir "result-dir"
        [FTree.file "a.mp4" 1, FTree.file "b.mp4" 2]) = some ("b.mp4", 2) ∧
      (∀ (t : FTree) (f : String × Nat), locate t = some f →
        pyEndsWith f.1 ".mp4" = true ∧ f ∈ collectFiles t ∧
          ∀ g ∈ collectFiles t, pyEndsWith g.1 ".mp4" = true →
            g.2 ≤ f.2) ∧
      (∀ t : FTree, locate t = none →
        ∀ g ∈ collectFiles t, pyEndsWith g.1 ".mp4" = false) := by
  refine ⟨?_, ?_, locate_some_newest, locate_none_noMatch⟩
  · simp [locate, collectFiles, collectFilesList]
  · simp [locate, collectFiles, collectFilesList, List.mergeSort,
      pyEndsWith]

/-- C6 witness: the general newest-match property applied to a concrete
tree with the newest mp4 nested in a subdirectory. -/
theorem c6_witness :
    pyEndsWith "b.mp4" ".mp4" = true ∧
      ("b.mp4", 7) ∈ collectFiles (FTree.dir "rd"
        [FTree.dir "ts" [FTree.file "b.mp4" 7], FTree.file "a.mp4" 3]) ∧
      ∀ g ∈ collectFiles (FTree.dir "rd"
          [FTree.dir "ts" [FTree.file "b.mp4" 7], FTree.file "a.mp4" 3]),
        pyEndsWith g.1 ".mp4" = true → g.2 ≤ 7 :=
  c6_locator_newest_mp4.2.2.1 (FTree.dir "rd"
    [FTree.dir "ts" [FTree.file "b.mp4" 7], FTree.file "a.mp4" 3])
    ("b.mp4", 7)
    (by simp [locate, collectFiles, collectFilesList, List.mergeSort,
      pyEndsWith])

/-! ## Claim C7: missing voice model -/

/-- C7: when the configured voice-model path does not exist at the
speech-synthesis step, the run fails with the missing-voice-model error
(whose message names the missing path, with guidance), neither the
piper process nor the animation stage is ever invoked, and the
already-created `resultDir` and `saveDir` are left in place. -/
theorem c7_missing_voice_model (inp : RunInputs) (w : World)
    (hroot : w.projectRoot ∈ w.fs.dirs)
    (hfresh : saveDir inp w ∉ w.fs.dirs)
    (hvm : w.voiceModelExists = false) :
    (runPipeline inp w).1 = .error (.missingVoiceModel inp.voiceModel) ∧
      (∀ c, Event.animInvoked c ∉ (runPipeline inp w).2.2) ∧
      (∀ c, Event.piperInvoked c ∉ (runPipeline inp w).2.2) ∧
      resultDir inp w ∈ (runPipeline inp w).2.1.dirs ∧
      saveDir inp w ∈ (runPipeline inp w).2.1.dirs ∧
      (∃ pre post : String,
        missingVoiceModelMsg inp.voiceModel =
          pre ++ inp.voiceModel ++ post) := by
  obtain ⟨fs2, ⟨hm1, hm2, hm3⟩, heq⟩ := runPipeline_alloc inp w hroot hfresh
  rw [heq, runStages_noVM inp w fs2 (resultDir inp w) (saveDir inp w) hvm]
  refine ⟨rfl, ?_, ?_, hm2, hm3,
    ⟨"Piper voice model not found: ",
     "\n" ++
       "Run: python setup.py --models-only, or place the .onnx under models/voices/",
     rfl⟩⟩
  · intro c
    simp
  · intro c
    simp

/-- C7 witness: the missing-voice-model failure on a concrete run. -/
theorem c7_witness :
    (runPipeline sampleInputs sampleWorldNoVM).1 =
        .error (.missingVoiceModel "models/voices/dii_pt-PT.onnx") ∧
      (∀ c, Event.animInvoked c ∉
        (runPipeline sampleInputs sampleWorldNoVM).2.2) :=
  ⟨(c7_missing_voice_model sampleInputs sampleWorldNoVM (by decide)
      (by decide) rfl).1,
   (c7_missing_voice_model sampleInputs sampleWorldNoVM (by decide)
      (by decide) rfl).2.1⟩

/-! ## Claim C8: the animation command line -/

/-- C8: in the constructed SadTalker command line — provided none of the
free-form argument values collides with the literal flag names —
`--still` appears iff the still value is true, and `--enhancer` appears
iff the gfpgan enhancer was selected (choice "2"), in which case the
command ends with `--enhancer gfpgan`. -/
theorem c8_anim_flags (pythonExe wav avatar rd sd size bs pp : String)
    (still : Bool) (choice : String)
    (h1 : "--still" ∉ [pythonExe, wav, avatar, rd, sd, size, bs, pp])
    (h2 : "--enhancer" ∉ [pythonExe, wav, avatar, rd, sd, size, bs, pp]) :
    ("--still" ∈ buildAnimCmd pythonExe wav avatar rd sd size bs pp still
        (enhancerOfChoice choice) ↔ still = true) ∧
      ("--enhancer" ∈ buildAnimCmd pythonExe wav avatar rd sd size bs pp
        still (enhancerOfChoice choice) ↔ choice = "2") ∧
      (choice = "2" →
        ∃ pre, buildAnimCmd pythonExe wav avatar rd sd size bs pp still
          (enhancerOfChoice choice) = pre ++ ["--enhancer", "gfpgan"]) := by
  simp only [List.mem_cons, List.not_mem_nil, or_false, not_or] at h1 h2
  obtain ⟨a1, a2, a3, a4, a5, a6, a7, a8⟩ := h1
  obtain ⟨b1, b2, b3, b4, b5, b6, b7, b8⟩ := h2
  refine ⟨?_, ?_, ?_⟩
  · by_cases hc : choice = "2" <;> by_cases hstill : still = true <;>
      simp [buildAnimCmd, enhancerOfChoice, hc, hstill, a1, a2, a3, a4,
        a5, a6, a7, a8]
  · by_cases hc : choice = "2" <;> by_cases hstill : still = true <;>
      simp [buildAnimCmd, enhancerOfChoice, hc, hstill, b1, b2, b3, b4,
        b5, b6, b7, b8]
  · intro hc
    by_cases hstill : still = true
    · refine ⟨[pythonExe, "-m", "src.inference", "--driven_audio", wav,
        "--source_image", avatar, "--result_dir", rd, "--save_dir", sd,
        "--size", size, "--batch_size", bs, "--preprocess", pp,
        "--still"], ?_⟩
      simp [buildAnimCmd, enhancerOfChoice, hc, hstill]
    · refine ⟨[pythonExe, "-m", "src.inference", "--driven_audio", wav,
        "--source_image", avatar, "--result_dir", rd, "--save_dir", sd,
        "--size", size, "--batch_size", bs, "--preprocess", pp], ?_⟩
      simp [buildAnimCmd, enhancerOfChoice, hc, hstill]

/-- C8 witness: both flags present for still mode with gfpgan, both
absent for crop without enhancer. -/
theorem c8_witness :
    "--still" ∈ buildAnimCmd "python3" "w.wav" "a.jpg" "rd" "sd" "256"
        "1" "full" true (enhancerOfChoice "2") ∧
      "--enhancer" ∈ buildAnimCmd "python3" "w.wav" "a.jpg" "rd" "sd"
        "256" "1" "full" true (enhancerOfChoice "2") := by
  have h := c8_anim_flags "python3" "w.wav" "a.jpg" "rd" "sd" "256" "1"
    "full" true "2" (by decide) (by decide)
  exact ⟨h.1.mpr rfl, h.2.1.mpr rfl⟩

/-! ## Claim C9: default voice resolution -/

/-- C9: the default voice choice compares the file name of the configured
default-voice path with the file names of the two known voice models:
equal to the male file name gives the male default, otherwise equal to
the female file name gives the female default, and when neither matches
— or when the path comparison itself fails — the default falls back to
female. -/
theorem c9_default_voice (dp mp fp maleModel femaleModel : String) :
    (pathName dp = pathName mp →
        piperDefaultChoice (some (dp, mp, fp)) = "1" ∧
        voiceModelOfChoice (piperDefaultChoice (some (dp, mp, fp)))
          maleModel femaleModel = maleModel) ∧
      (pathName dp ≠ pathName mp → pathName dp = pathName fp →
        piperDefaultChoice (some (dp, mp, fp)) = "2" ∧
        voiceModelOfChoice (piperDefaultChoice (some (dp, mp, fp)))
          maleModel femaleModel = femaleModel) ∧
      (pathName dp ≠ pathName mp → pathName dp ≠ pathName fp →
        piperDefaultChoice (some (dp, mp, fp)) = "2" ∧
        voiceModelOfChoice (piperDefaultChoice (some (dp, mp, fp)))
          maleModel femaleModel = femaleModel) ∧
      (piperDefaultChoice none = "2" ∧
        voiceModelOfChoice (piperDefaultChoice none) maleModel
          femaleModel = femaleModel) := by
  refine ⟨?_, ?_, ?_, rfl, rfl⟩
  · intro h
    have hc : piperDefaultChoice (some (dp, mp, fp)) = "1" := by
      show (if pathName dp = pathName mp then "1"
        else if pathName dp = pathName fp then "2" else "2") = "1"
      rw [if_pos h]
    exact ⟨hc, by simp [hc, voiceModelOfChoice]⟩
  · intro hne h
    have hc : piperDefaultChoice (some (dp, mp, fp)) = "2" := by
      show (if pathName dp = pathName mp then "1"
        else if pathName dp = pathName fp then "2" else "2") = "2"
      rw [if_neg hne, if_pos h]
    exact ⟨hc, by simp [hc, voiceModelOfChoice]⟩
  · intro hne hnf
    have hc : piperDefaultChoice (some (dp, mp, fp)) = "2" := by
      show (if pathName dp = pathName mp then "1"
        else if pathName dp = pathName fp then "2" else "2") = "2"
      rw [if_neg hne, if_neg hnf]
    exact ⟨hc, by simp [hc, voiceModelOfChoice]⟩

/-- C9 witness: the three outcomes at concrete paths (matching the
repository's two configured voice files). -/
theorem c9_witness :
    piperDefaultChoice (some ("env/pt_PT-tugao-medium.onnx",
        "models/voices/pt_PT-tugao-medium.onnx",
        "models/voices/dii_pt-PT.onnx")) = "1" ∧
      piperDefaultChoice (some ("env/dii_pt-PT.onnx",
        "models/voices/pt_PT-tugao-medium.onnx",
        "models/voices/dii_pt-PT.onnx")) = "2" ∧
      piperDefaultChoice (some ("env/other.onnx",
        "models/voices/pt_PT-tugao-medium.onnx",
        "models/voices/dii_pt-PT.onnx")) = "2" :=
  ⟨((c9_default_voice "env/pt_PT-tugao-medium.onnx"
      "models/voices/pt_PT-tugao-medium.onnx"
      "models/voices/dii_pt-PT.onnx" "M" "F").1 (by decide)).1,
   ((c9_default_voice "env/dii_pt-PT.onnx"
      "models/voices/pt_PT-tugao-medium.onnx"
      "models/voices/dii_pt-PT.onnx" "M" "F").2.1 (by decide)
      (by decide)).1,
   ((c9_default_voice "env/other.onnx"
      "models/voices/pt_PT-tugao-medium.onnx"
      "models/voices/dii_pt-PT.onnx" "M" "F").2.2.1 (by decide)
      (by decide)).1⟩

/-! ## Claim C10: speak creates the output directory first -/

/-- C10: when the output wav path has a non-empty directory component,
`speak` creates that directory — with its missing parents, and without
any possibility of failure when it already exists (`makedirs` is total) —
before invoking the piper executable: the directory-creation action
precedes the process invocation in the trace, the directory (and, when
it was absent, every ancestor of it) exists afterwards, and no existing
directory is disturbed. -/
theorem c10_speak_creates_out_dir (text path model : String)
    (extra : Option (List String)) (fs : FS) (piper : ProcBehavior)
    (hdir : dirname path ≠ "") :
    (speak text path model extra fs piper).2.2 =
        [Event.makeDirsEv (dirname path),
         Event.piperInvoked (piperCmd text path model extra)] ∧
      splitPath (dirname path) ∈
        (speak text path model extra fs piper).2.1.dirs ∧
      (∀ q ∈ fs.dirs, q ∈ (speak text path model extra fs piper).2.1.dirs) ∧
      (splitPath (dirname path) ∉ fs.dirs →
        ∀ k, k < (splitPath (dirname path)).length →
          (splitPath (dirname path)).take (k + 1) ∈
            (speak text path model extra fs piper).2.1.dirs) := by
  have hfs : (speak text path model extra fs piper).2.1 =
      makedirs fs (splitPath (dirname path)) := by
    rw [speak_fs, if_pos hdir]
  refine ⟨?_, ?_, ?_, ?_⟩
  · rw [speak_trace, if_pos hdir]
    rfl
  · rw [hfs]
    exact self_mem_makedirs (splitPath_ne_nil _)
  · intro q hq
    rw [hfs]
    exact mem_makedirs_of_mem hq
  · intro hnot k hk
    rw [hfs]
    unfold makedirs
    rw [if_neg hnot]
    exact List.mem_append.mpr (Or.inl (take_mem_pathPrefixes hk))

/-- C10 witness: a concrete call whose output path lives in a yet-missing
directory. -/
theorem c10_witness :
    (speak "hi" "out/x.wav" "m" none ⟨[]⟩ ⟨0, "", true, 3⟩).2.2 =
        [Event.makeDirsEv (dirname "out/x.wav"),
         Event.piperInvoked (piperCmd "hi" "out/x.wav" "m" none)] ∧
      splitPath (dirname "out/x.wav") ∈
        (speak "hi" "out/x.wav" "m" none ⟨[]⟩ ⟨0, "", true, 3⟩).2.1.dirs :=
  ⟨(c10_speak_creates_out_dir "hi" "out/x.wav" "m" none ⟨[]⟩
      ⟨0, "", true, 3⟩ (by decide)).1,
   (c10_speak_creates_out_dir "hi" "out/x.wav" "m" none ⟨[]⟩
      ⟨0, "", true, 3⟩ (by decide)).2.1⟩

end SadCli
